import Mathlib

/- Verification development for the Backtest.jl calculation lattice
   (src/engine/engine.py, src/engine/fields/fields.py,
    src/engine/fields/field_utils.py, src/engine/engine_utils.py).

   Shallow embedding conventions:
   * Python float payloads are modelled as exact rationals in lowest terms; the
     distinguished missing sentinel (numpy.nan) is a separate constructor.
   * Python dicts keyed by identifiers become association lists with
     overwrite-in-place insertion (matching CPython dict semantics).
   * Exceptions become `Except`: ValueError / IndexError / KeyError and the
     repository's own exception classes are distinct constructors.
   * The recursive per-bar propagation of CalcLattice.__propagate is run as a
     depth-first task list with an explicit fuel parameter standing for the
     Python call stack; all concrete runs use ample fuel.
-/

namespace Backtest

/-- Identifier for an asset (engine_utils.AssetId wraps an opaque label). -/
abbrev AssetId := String

/-- Identifier for a field (engine_utils.FieldId wraps an opaque label). -/
abbrev FieldId := String

/-- Euclidean gcd with an explicit descent bound; the first argument
strictly decreases, so fuel `a + 1` always suffices. -/
def natGcdAux : Nat → Nat → Nat → Nat
  | 0, _, b => b
  | _ + 1, 0, b => b
  | fuel + 1, a + 1, b => natGcdAux fuel (b % (a + 1)) (a + 1)

/-- Kernel-computable gcd used to normalize rationals. -/
def natGcd (a b : Nat) : Nat := natGcdAux (a + 1) a b

/-- An exact rational in lowest terms with positive denominator, standing in
for the 64-bit floats of the source: numerator and denominator are kept
normalized by the smart constructor so that structural equality is value
equality. -/
structure Q where
  num : Int
  den : Nat
deriving DecidableEq

/-- Normalized fraction n / d (d = 0 never arises from guarded code paths
and maps to the junk value 0 / 0). -/
def mkQ (n d : Int) : Q :=
  if d = 0 then ⟨0, 0⟩
  else
    let na := n.natAbs
    let da := d.natAbs
    let g := natGcd na da
    let nr := na / g
    let dr := da / g
    if (0 ≤ n) = (0 ≤ d) then ⟨(nr : Int), dr⟩ else ⟨-(nr : Int), dr⟩

/-- The integer n as a Q. -/
def intQ (n : Int) : Q := ⟨n, 1⟩

instance (n : Nat) : OfNat Q n := ⟨intQ (n : Int)⟩

instance : Neg Q := ⟨fun x => ⟨-x.num, x.den⟩⟩

/-- Rational addition. -/
def qAdd (x y : Q) : Q :=
  mkQ (x.num * (y.den : Int) + y.num * (x.den : Int)) ((x.den : Int) * (y.den : Int))

/-- Rational subtraction. -/
def qSub (x y : Q) : Q :=
  mkQ (x.num * (y.den : Int) - y.num * (x.den : Int)) ((x.den : Int) * (y.den : Int))

/-- Rational multiplication. -/
def qMul (x y : Q) : Q := mkQ (x.num * y.num) ((x.den : Int) * (y.den : Int))

/-- Rational division (division by zero yields the junk value, guarded out
by every caller). -/
def qDiv (x y : Q) : Q := mkQ (x.num * (y.den : Int)) ((x.den : Int) * y.num)

/-- Sum of a list of rationals. -/
def qSum (l : List Q) : Q := l.foldr qAdd 0

/-- A cell payload: a float modelled exactly, or the missing sentinel
(numpy.nan). -/
inductive Val where
  | num (q : Q)
  | missing
deriving DecidableEq

/-- Python truthiness of an optional computed result, as tested by
`if result:` in CalcLattice.__propagate: None and 0.0 are falsy, while
nan and every nonzero float are truthy. -/
def valTruthy : Option Val → Bool
  | none => false
  | some Val.missing => true
  | some (Val.num q) => q ≠ 0

/-- Subtraction on payloads; nan propagates (pandas elementwise `-`). -/
def valSub : Val → Val → Val
  | Val.num a, Val.num b => Val.num (qSub a b)
  | _, _ => Val.missing

/-- Division on payloads; nan propagates (pandas elementwise `/`).
Division by zero is modelled as the missing sentinel; no claim evaluates
the code there. -/
def valDiv : Val → Val → Val
  | Val.num a, Val.num b => if b = 0 then Val.missing else Val.num (qDiv a b)
  | _, _ => Val.missing

/-- The valid (non-nan) entries of a series, as pandas skipna reductions
see them. -/
def validVals (vs : List Val) : List Q :=
  vs.filterMap (fun v => match v with | Val.num q => some q | Val.missing => none)

/-- Embedding of SMA.op (fields.py): `data.sum() / data.size`; pandas sum
skips nan while size counts every entry, and an empty series yields nan. -/
def smaOp (vs : List Val) : Val :=
  if vs.length = 0 then Val.missing
  else Val.num (qDiv (qSum (validVals vs)) (intQ (vs.length : Int)))

/-- Linear-scan integer square root, kernel-computable on the small concrete
inputs of the scenarios. -/
def natSqrtLin (n : Nat) : Nat :=
  (List.range (n + 1)).foldl (fun acc k => if k * k ≤ n then k else acc) 0

/-- Exact square root over Q where it exists, standing in for the
floating-point sqrt inside pandas std; each claim only evaluates the code
where the root is rational. -/
def ratSqrt (q : Q) : Option Q :=
  if q.num < 0 then none
  else
    let n := q.num.toNat
    let d := q.den
    let sn := natSqrtLin n
    let sd := natSqrtLin d
    if sn * sn = n ∧ sd * sd = d then some (mkQ (sn : Int) (sd : Int)) else none

/-- Mean of the valid entries (pandas Series.mean, skipna); nan when there
is no valid entry. -/
def seriesMean (qs : List Q) : Option Q :=
  if qs.length = 0 then none else some (qDiv (qSum qs) (intQ (qs.length : Int)))

/-- Sample standard deviation of the valid entries (pandas Series.std,
ddof = 1): nan when fewer than two valid entries. -/
def sampleStd (qs : List Q) : Val :=
  if qs.length < 2 then Val.missing
  else
    let m := qDiv (qSum qs) (intQ (qs.length : Int))
    let variance :=
      qDiv (qSum (qs.map (fun q => qMul (qSub q m) (qSub q m))))
        (intQ ((qs.length : Int) - 1))
    match ratSqrt variance with
    | some s => Val.num s
    | none => Val.missing

/-- Embedding of Z_Score.op (fields.py): `(data - data.mean()) / data.std()`
elementwise over the cross-section. -/
def zScoreOp (data : List (AssetId × Val)) : List (AssetId × Val) :=
  let qs := validVals (data.map Prod.snd)
  let m : Val := match seriesMean qs with
    | some q => Val.num q
    | none => Val.missing
  let s : Val := sampleStd qs
  data.map (fun p => (p.1, valDiv (valSub p.2 m) s))

/-- Association-list lookup with decidable key equality (Python dict read). -/
def lookupKey {α β : Type} [DecidableEq α] (k : α) : List (α × β) → Option β
  | [] => none
  | e :: rest => if e.1 = k then some e.2 else lookupKey k rest

/-- Runtime errors raised while a bar is processed, mirroring the Python
exception classes that engine.py can raise. -/
inductive RunErr where
  | valueErr
  | indexErr
  | keyErr
  | exception
deriving DecidableEq

/-- Embedding of BarLayer (engine.py): a dict from (asset, field) to value. -/
abbrev BarLayer := List ((AssetId × FieldId) × Val)

/-- Embedding of BarLayer.insert_value: dict write, silently overwriting an
existing entry in place (CPython dict assignment). -/
def insertValue : BarLayer → AssetId → FieldId → Val → BarLayer
  | [], a, f, v => [((a, f), v)]
  | e :: rest, a, f, v =>
    if e.1 = (a, f) then ((a, f), v) :: rest else e :: insertValue rest a f v

/-- Embedding of BarLayer.get_value: raises ValueError when the cell is
absent. -/
def getValue (layer : BarLayer) (a : AssetId) (f : FieldId) : Except RunErr Val :=
  match lookupKey (a, f) layer with
  | some v => .ok v
  | none => .error .valueErr

/-- The per-field cross-section of a layer, as built by
CalcLattice._get_n_bar_ago_field_data's filter over get_all_values. -/
def fieldData (layer : BarLayer) (f : FieldId) : List (AssetId × Val) :=
  layer.filterMap (fun e => if e.1.2 = f then some (e.1.1, e.2) else none)

/-- A registered field operation instance, the tagged-variant rendering of
the InjectionOp / WindowOp / CrossSectionalOp class hierarchy (fields.py).
Window and cross-sectional variants carry their reduction callbacks. -/
inductive FieldOpInst where
  | injection (fieldId : FieldId)
  | window (windowLen : Int) (depFieldId : FieldId) (fieldId : FieldId)
      (opF : List Val → Val) (partialOpF : List Val → Val)
  | crossSectional (depFieldId : FieldId) (fieldId : FieldId)
      (opF : List (AssetId × Val) → List (AssetId × Val))

/-- Embedding of WindowOp.partial_data_op's default body: return nan. -/
def partialDataOp : List Val → Val := fun _ => Val.missing

/-- Embedding of the CalcLattice state (engine.py __init__). `recentBars`
slots start unpopulated, matching the np.zeros(object) array. -/
structure CalcLattice where
  assetIds : List AssetId
  numBarsStored : Nat
  curBarIndex : Int
  numBarsCompleted : Int
  recentBars : List (Option BarLayer)
  numAssetsCompleted : List (FieldId × Nat)
  windowDepFields : List (FieldId × List FieldId)
  crossSectionalFields : List (FieldId × List FieldId)
  fieldToFieldOp : List (FieldId × FieldOpInst)

/-- Embedding of CalcLattice.__init__(num_bars_stored, asset_ids). -/
def mkCalcLattice (numBarsStored : Nat) (assetIds : List AssetId) : CalcLattice :=
  { assetIds := assetIds
    numBarsStored := numBarsStored
    curBarIndex := -1
    numBarsCompleted := -1
    recentBars := List.replicate numBarsStored none
    numAssetsCompleted := []
    windowDepFields := []
    crossSectionalFields := []
    fieldToFieldOp := [] }

/-- Embedding of CalcLattice.__get_n_bar_ago_data: guard order is the
source's: negative ago (ValueError), ago beyond ring capacity (ValueError),
ago beyond completed bars (IndexError), then the ring read at
(cur_index - ago) mod capacity. Reading a never-populated slot would crash
in Python; it is modelled as a generic exception and is unreachable through
new_bar. -/
def CalcLattice.getNBarAgoData (lat : CalcLattice) (ago : Int) : Except RunErr BarLayer :=
  if ago < 0 then .error .valueErr
  else if (lat.numBarsStored : Int) ≤ ago then .error .valueErr
  else if lat.numBarsCompleted < ago then .error .indexErr
  else
    match lat.recentBars.getD ((lat.curBarIndex - ago) % (lat.numBarsStored : Int)).toNat none with
    | some layer => .ok layer
    | none => .error .exception

/-- Embedding of CalcLattice._get_n_bar_ago_field_data. -/
def CalcLattice.getNBarAgoFieldData (lat : CalcLattice) (ago : Int) (f : FieldId) :
    Except RunErr (List (AssetId × Val)) :=
  match lat.getNBarAgoData ago with
  | .error e => .error e
  | .ok layer => .ok (fieldData layer f)

/-- Embedding of CalcLattice.__insert_node_in_cur_layer. -/
def CalcLattice.insertNodeInCurLayer (lat : CalcLattice) (a : AssetId) (f : FieldId) (v : Val) :
    CalcLattice :=
  let i := lat.curBarIndex.toNat
  let layer := (lat.recentBars.getD i none).getD []
  { lat with recentBars := lat.recentBars.set i (some (insertValue layer a f v)) }

/-- One read inside WindowOp.__get_window_of_data's dict comprehension:
`self._lattice._get_n_bar_ago_field_data(ago, dep)[asset_id]`; the indexing
raises KeyError when the asset has no entry. -/
def windowReadOne (lat : CalcLattice) (dep : FieldId) (a : AssetId) (ago : Nat) :
    Except RunErr Val :=
  match lat.getNBarAgoFieldData (ago : Int) dep with
  | .error e => .error e
  | .ok fd =>
    match lookupKey a fd with
    | some v => .ok v
    | none => .error .keyErr

/-- The dict comprehension of WindowOp.__get_window_of_data over a list of
ago offsets, first error wins. -/
def collectWindow (lat : CalcLattice) (dep : FieldId) (a : AssetId) :
    List Nat → Except RunErr (List Val)
  | [] => .ok []
  | ago :: rest =>
    match windowReadOne lat dep a ago with
    | .error e => .error e
    | .ok v =>
      match collectWindow lat dep a rest with
      | .error e => .error e
      | .ok vs => .ok (v :: vs)

/-- Embedding of WindowOp.__get_window_of_data: reads
min(window_len, num_bars_completed + 1) values ending at the current bar. -/
def windowGetData (lat : CalcLattice) (windowLen : Int) (dep : FieldId) (a : AssetId) :
    Except RunErr (List Val) :=
  collectWindow lat dep a (List.range (min windowLen (lat.numBarsCompleted + 1)).toNat)

/-- Embedding of WindowOp.execute_op: full window runs op, short window runs
partial_data_op, and a longer-than-requested window raises. -/
def windowExecuteOp (lat : CalcLattice) (windowLen : Int) (dep : FieldId)
    (opF partialOpF : List Val → Val) (a : AssetId) : Except RunErr Val :=
  match windowGetData lat windowLen dep a with
  | .error e => .error e
  | .ok data =>
    if (data.length : Int) = windowLen then .ok (opF data)
    else if (data.length : Int) < windowLen then .ok (partialOpF data)
    else .error .exception

/-- Embedding of CrossSectionalOp.execute_op: gather the current-bar
cross-section of the upstream field, then apply op. -/
def csExecuteOp (lat : CalcLattice) (dep : FieldId)
    (opF : List (AssetId × Val) → List (AssetId × Val)) :
    Except RunErr (List (AssetId × Val)) :=
  match lat.getNBarAgoFieldData 0 dep with
  | .error e => .error e
  | .ok cross => .ok (opF cross)

/-- Counter read with default 0 (collections.Counter). -/
def counterGet (c : List (FieldId × Nat)) (f : FieldId) : Nat :=
  (lookupKey f c).getD 0

/-- Counter increment (collections.Counter `+= 1`). -/
def counterBump (c : List (FieldId × Nat)) (f : FieldId) : List (FieldId × Nat) :=
  if (lookupKey f c).isSome then c.map (fun e => if e.1 = f then (f, e.2 + 1) else e)
  else c ++ [(f, 1)]

/-- Forward adjacency read: dependents of a field, empty when the key is
absent (the `if field_id in dict` guards of engine.py). -/
def depsOf (m : List (FieldId × List FieldId)) (f : FieldId) : List FieldId :=
  (lookupKey f m).getD []

/-- One pending unit of the recursive propagation of
CalcLattice.__propagate, linearised depth-first:
`visit` computes and conditionally stores one (asset, field) node and
queues its window dependents followed by its own `finish`;
`finish` bumps the per-bar counter and, at the all-assets barrier, queues a
`fire` per cross-sectional dependent; `fire` executes a cross-sectional op
once and queues a `visit` per asset carrying the prefetched results. -/
inductive EngineTask where
  | visit (a : AssetId) (f : FieldId) (csResults : Option (List (AssetId × Val)))
  | finish (f : FieldId)
  | fire (f : FieldId)

/-- Expansion of a single EngineTask, one activation record of
CalcLattice.__propagate (or of the cross-sectional half of
__propagate_from_genesis_field for `fire`). -/
def step (lat : CalcLattice) (t : EngineTask) : Except RunErr (CalcLattice × List EngineTask) :=
  match t with
  | .visit a f csRes =>
    match lookupKey f lat.fieldToFieldOp with
    | none => .error .keyErr
    | some inst =>
      let resultE : Except RunErr (Option Val) :=
        match inst with
        | .window wl dep _ opF pOpF => (windowExecuteOp lat wl dep opF pOpF a).map some
        | .crossSectional _ _ _ =>
          match csRes with
          | none => .error .valueErr
          | some rs =>
            match lookupKey a rs with
            | some v => .ok (some v)
            | none => .error .keyErr
        | .injection _ => .ok none
      match resultE with
      | .error e => .error e
      | .ok res =>
        let lat2 := match res with
          | some v => if valTruthy (some v) then lat.insertNodeInCurLayer a f v else lat
          | none => lat
        let winTasks := (depsOf lat2.windowDepFields f).map (fun w => EngineTask.visit a w none)
        .ok (lat2, winTasks ++ [EngineTask.finish f])
  | .finish f =>
    let lat2 := { lat with numAssetsCompleted := counterBump lat.numAssetsCompleted f }
    if (lookupKey f lat2.crossSectionalFields).isSome ∧
        counterGet lat2.numAssetsCompleted f = lat2.assetIds.length then
      .ok (lat2, (depsOf lat2.crossSectionalFields f).map EngineTask.fire)
    else .ok (lat2, [])
  | .fire c =>
    match lookupKey c lat.fieldToFieldOp with
    | none => .error .keyErr
    | some inst =>
      match inst with
      | .crossSectional dep _ opF =>
        match csExecuteOp lat dep opF with
        | .error e => .error e
        | .ok rs => .ok (lat, lat.assetIds.map (fun a => EngineTask.visit a c (some rs)))
      | _ => .error .exception

/-- Depth-first driver of the propagation task list; fuel stands for the
Python call stack and only runs out on divergent graphs. -/
def runTasks : Nat → CalcLattice → List EngineTask → Except RunErr CalcLattice
  | _, lat, [] => .ok lat
  | 0, _, _ :: _ => .error .exception
  | fuel + 1, lat, t :: rest =>
    match step lat t with
    | .error e => .error e
    | .ok (lat2, ts) => runTasks fuel lat2 (ts ++ rest)

/-- Genesis insertion loop body of CalcLattice.__inject_and_propagate for a
single asset: each field id is read from the asset's sub-dict (KeyError if
absent) and inserted into the current layer. -/
def insertGenesisForAsset (lat : CalcLattice) (a : AssetId) (avs : List (FieldId × Val)) :
    List FieldId → Except RunErr CalcLattice
  | [] => .ok lat
  | f :: rest =>
    match lookupKey f avs with
    | none => .error .keyErr
    | some v => insertGenesisForAsset (lat.insertNodeInCurLayer a f v) a avs rest

/-- Genesis insertion over all assets in data order. -/
def insertGenesis (lat : CalcLattice) (fieldIds : List FieldId) :
    List (AssetId × List (FieldId × Val)) → Except RunErr CalcLattice
  | [] => .ok lat
  | (a, avs) :: rest =>
    match insertGenesisForAsset lat a avs fieldIds with
    | .error e => .error e
    | .ok lat2 => insertGenesis lat2 fieldIds rest

/-- The initial task list produced by the genesis fan-out loop
(CalcLattice.__propagate_from_genesis_field for each genesis field in
order): all window dependents per asset, then one fire per cross-sectional
dependent. -/
def genesisTasks (lat : CalcLattice) (genFieldIds : List FieldId) : List EngineTask :=
  genFieldIds.flatMap (fun g =>
    ((depsOf lat.windowDepFields g).flatMap
      (fun w => lat.assetIds.map (fun a => EngineTask.visit a w none)))
    ++ (depsOf lat.crossSectionalFields g).map EngineTask.fire)

/-- Embedding of CalcLattice.__inject_and_propagate: advance the ring,
install a fresh layer, insert all genesis cells (field ids taken from the
first asset's sub-dict; empty data raises IndexError), then fan out. -/
def CalcLattice.injectAndPropagate (lat : CalcLattice) (fuel : Nat)
    (data : List (AssetId × List (FieldId × Val))) : Except RunErr CalcLattice :=
  let lat1 := { lat with
    curBarIndex := (lat.curBarIndex + 1) % (lat.numBarsStored : Int)
    numBarsCompleted := lat.numBarsCompleted + 1 }
  let lat2 := { lat1 with recentBars := lat1.recentBars.set lat1.curBarIndex.toNat (some []) }
  match data.head? with
  | none => .error .indexErr
  | some firstAsset =>
    let fieldIds := firstAsset.2.map Prod.fst
    match insertGenesis lat2 fieldIds data with
    | .error e => .error e
    | .ok lat3 => runTasks fuel lat3 (genesisTasks lat3 fieldIds)

/-- Embedding of engine_utils.DAGStatusCodes. -/
def DAGStatusCodes.CIRCULAR : Int := -1

/-- Embedding of engine_utils.DAGStatusCodes.OK. -/
def DAGStatusCodes.OK : Int := 1

/-- Embedding of CalcLattice.__check_DAG: the source leaves the check as a
TODO and returns DAGStatusCodes.OK unconditionally. -/
def CalcLattice.checkDAG (_lat : CalcLattice) : Int := DAGStatusCodes.OK

/-- Errors surfaced by new_bar: either a BadDAGException carrying a status
code, or a runtime error from propagation. -/
inductive Err where
  | badDAG (code : Int)
  | runErr (e : RunErr)
deriving DecidableEq

/-- Embedding of CalcLattice.new_bar: DAG gate on the first bar (cur index
still -1), then inject-and-propagate, then reset the per-bar counter. -/
def CalcLattice.newBar (lat : CalcLattice) (fuel : Nat)
    (data : List (AssetId × List (FieldId × Val))) : Except Err CalcLattice :=
  let code := lat.checkDAG
  if lat.curBarIndex = -1 ∧ code ≠ DAGStatusCodes.OK then .error (.badDAG code)
  else
    match lat.injectAndPropagate fuel data with
    | .error e => .error (.runErr e)
    | .ok lat2 => .ok { lat2 with numAssetsCompleted := [] }

/-- Errors raised by CalcLattice.add_field: StaticDAGException after the
first bar, a duplicate-name Exception, or the unknown-operation ValueError. -/
inductive AddFieldErr where
  | staticDAG
  | duplicateField
  | unknownOpKind
deriving DecidableEq

/-- A user field declaration, the tagged-variant rendering of
fields.Field together with its chosen operation class. -/
inductive FieldSpec where
  | injection (fieldId : FieldId)
  | window (fieldId : FieldId) (depFieldId : FieldId) (windowLen : Int)
      (opF : List Val → Val) (partialOpF : List Val → Val)
  | crossSectional (fieldId : FieldId) (depFieldId : FieldId)
      (opF : List (AssetId × Val) → List (AssetId × Val))

/-- The declared field id of a FieldSpec. -/
def FieldSpec.fieldId : FieldSpec → FieldId
  | .injection f => f
  | .window f _ _ _ _ => f
  | .crossSectional f _ _ => f

/-- Embedding of the local append_to_dict helper inside
CalcLattice.add_field. -/
def appendToDict (d : List (FieldId × List FieldId)) (k : FieldId) (v : FieldId) :
    List (FieldId × List FieldId) :=
  if (lookupKey k d).isSome then d.map (fun e => if e.1 = k then (k, e.2 ++ [v]) else e)
  else d ++ [(k, [v])]

/-- Embedding of CalcLattice.add_field: rejects mutation after the first
bar and duplicate ids (only ids present in field_to_field_op count, so
injection fields are never recorded there); otherwise registers the
operation instance and appends the forward adjacency edge. No window-length
or upstream-existence validation is performed, mirroring the source. -/
def CalcLattice.addField (lat : CalcLattice) (field : FieldSpec) :
    Except AddFieldErr CalcLattice :=
  if lat.curBarIndex ≠ -1 then .error .staticDAG
  else if (lookupKey field.fieldId lat.fieldToFieldOp).isSome then .error .duplicateField
  else
    match field with
    | .injection _ => .ok lat
    | .window f dep wl opF pOpF =>
      .ok { lat with
        fieldToFieldOp := lat.fieldToFieldOp ++ [(f, .window wl dep f opF pOpF)]
        windowDepFields := appendToDict lat.windowDepFields dep f }
    | .crossSectional f dep opF =>
      .ok { lat with
        fieldToFieldOp := lat.fieldToFieldOp ++ [(f, .crossSectional dep f opF)]
        crossSectionalFields := appendToDict lat.crossSectionalFields dep f }

/-- Historical read used by the driver: fetch the layer `n` bars ago and
read one cell (spec name value_ago). -/
def CalcLattice.valueAgo (lat : CalcLattice) (n : Int) (a : AssetId) (f : FieldId) :
    Except RunErr Val :=
  match lat.getNBarAgoData n with
  | .error e => .error e
  | .ok layer => getValue layer a f

/-- A Field declaration carrying the SMA operation class with its inherited
default partial_data_op. -/
def smaField (f dep : FieldId) (wl : Int) : FieldSpec :=
  .window f dep wl smaOp partialDataOp

/-- A Field declaration carrying the Z_Score operation class. -/
def zscoreField (f dep : FieldId) : FieldSpec :=
  .crossSectional f dep zScoreOp

/-- Register a list of fields in order, first failure wins (the add_field
loop of a driver). -/
def buildLat : CalcLattice → List FieldSpec → Except AddFieldErr CalcLattice
  | lat, [] => .ok lat
  | lat, f :: rest =>
    match lat.addField f with
    | .error e => .error e
    | .ok lat2 => buildLat lat2 rest

/-- Feed a list of bars through new_bar in order, first failure wins. -/
def feedBars (fuel : Nat) (lat : CalcLattice) :
    List (List (AssetId × List (FieldId × Val))) → Except Err CalcLattice
  | [] => .ok lat
  | b :: rest =>
    match lat.newBar fuel b with
    | .error e => .error e
    | .ok lat2 => feedBars fuel lat2 rest

/-- Build a lattice with the given capacity, assets and fields, feed the
given bars, then perform one historical read `n` bars ago. -/
def runAndReadAgo (cap : Nat) (assets : List AssetId) (fs : List FieldSpec)
    (bars : List (List (AssetId × List (FieldId × Val)))) (n : Int)
    (a : AssetId) (f : FieldId) : Except Err Val :=
  match buildLat (mkCalcLattice cap assets) fs with
  | .error _ => .error (.runErr .exception)
  | .ok lat =>
    match feedBars 200 lat bars with
    | .error e => .error e
    | .ok lat2 =>
      match lat2.valueAgo n a f with
      | .error e => .error (.runErr e)
      | .ok v => .ok v

/-- A one-genesis-field bar block: every listed asset carries field `f`. -/
def oneBar (f : FieldId) (vs : List (AssetId × Q)) :
    List (AssetId × List (FieldId × Val)) :=
  vs.map (fun p => (p.1, [(f, Val.num p.2)]))

/-- Asset label A of the concrete scenarios. -/
def assetA : AssetId := "A"

/-- Asset label B of the concrete scenarios. -/
def assetB : AssetId := "B"

/-- Asset label C of the concrete scenarios. -/
def assetC : AssetId := "C"

/-- Genesis field label Open of the concrete scenarios. -/
def fOpen : FieldId := "Open"

/-- Field label of a window_len-1 SMA used in the C1 and C7 scenarios. -/
def fSMA1 : FieldId := "SMA1"

/-- Field label of the window_len-3 SMA of the C4 scenario. -/
def fSMA3 : FieldId := "SMA3"

/-- Field label of the window_len-3 SMA of the C3 scenario. -/
def fW3 : FieldId := "W3"

/-- Field label of the Z-Score fields of the C2 and C7 scenarios. -/
def fZ : FieldId := "Z"

/-- Field labels of the cyclic pair of the C5 scenario. -/
def fF1 : FieldId := "F1"

/-- Second field label of the cyclic pair of the C5 scenario. -/
def fF2 : FieldId := "F2"

/-- Field label of the invalid window field of the C6 scenario. -/
def fW : FieldId := "W"

/-- C1 scenario fields: Open injected, SMA1 a window_len-1 SMA on Open. -/
def c1Fields : List FieldSpec := [.injection fOpen, smaField fSMA1 fOpen 1]

/-- C1 scenario bar: the single asset injects Open = 0, so the SMA1 result
is the falsy float 0.0. -/
def c1Bars : List (List (AssetId × List (FieldId × Val))) :=
  [oneBar fOpen [(assetA, 0)]]

/-- C2 scenario fields: Open injected, Z a Z-Score on Open. -/
def c2Fields : List FieldSpec := [.injection fOpen, zscoreField fZ fOpen]

/-- C2 scenario bar over assets A, B, C. -/
def c2Bar : List (AssetId × List (FieldId × Val)) :=
  oneBar fOpen [(assetA, 1), (assetB, 2), (assetC, 3)]

/-- C3 scenario fields: capacity will be 2 while W3 has window_len 3. -/
def c3Fields : List FieldSpec := [.injection fOpen, smaField fW3 fOpen 3]

/-- C3 scenario bars: three successive bars on the single asset. -/
def c3Bars : List (List (AssetId × List (FieldId × Val))) :=
  [oneBar fOpen [(assetA, 1)], oneBar fOpen [(assetA, 2)], oneBar fOpen [(assetA, 3)]]

/-- C4 scenario fields: Open injected, SMA3 a window_len-3 SMA on Open. -/
def c4Fields : List FieldSpec := [.injection fOpen, smaField fSMA3 fOpen 3]

/-- C4 scenario bars: Open = 1, 2, 3, 4 on the single asset. -/
def c4Bars : List (List (AssetId × List (FieldId × Val))) :=
  [oneBar fOpen [(assetA, 1)], oneBar fOpen [(assetA, 2)],
   oneBar fOpen [(assetA, 3)], oneBar fOpen [(assetA, 4)]]

/-- A concrete already-running lattice used to instantiate the general
window-operation theorems: one asset, capacity 1, one completed bar whose
layer holds Open = 7. -/
def c4WitLat : CalcLattice :=
  { assetIds := [assetA]
    numBarsStored := 1
    curBarIndex := 0
    numBarsCompleted := 0
    recentBars := [some [((assetA, fOpen), Val.num 7)]]
    numAssetsCompleted := []
    windowDepFields := []
    crossSectionalFields := []
    fieldToFieldOp := [] }

/-- A concrete lattice whose clamp min(window_len, bars_completed + 1)
exceeds the ring capacity, instantiating the overflow half of the amended
C3 theorem. -/
def c3WitLat : CalcLattice :=
  { assetIds := [assetA]
    numBarsStored := 1
    curBarIndex := 0
    numBarsCompleted := 1
    recentBars := [some []]
    numAssetsCompleted := []
    windowDepFields := []
    crossSectionalFields := []
    fieldToFieldOp := [] }

/-- C5 scenario: a lattice whose registered window edges form the cycle
F1 -> F2 -> F1 (registration succeeds because add_field never checks the
graph). -/
def c5Lat : CalcLattice :=
  match buildLat (mkCalcLattice 3 [assetA])
      [.injection fOpen, smaField fF1 fF2 1, smaField fF2 fF1 1] with
  | .ok lat => lat
  | .error _ => mkCalcLattice 0 []

/-- C5 scenario bar. -/
def c5Bar : List (AssetId × List (FieldId × Val)) := oneBar fOpen [(assetA, 1)]

/-- C7 scenario fields: Open injected, SMA1 a window_len-1 SMA on Open, and
Z a Z-Score downstream of SMA1. -/
def c7Fields : List FieldSpec :=
  [.injection fOpen, smaField fSMA1 fOpen 1, zscoreField fZ fSMA1]

/-- C7 scenario bar: Open(A) = 0 makes the computed SMA1(A) falsy, so the
cell is skipped and the Z barrier fires over a partial cross-section. -/
def c7Bar : List (AssetId × List (FieldId × Val)) :=
  oneBar fOpen [(assetA, 0), (assetB, 5)]

/-- The C7 scenario run: build, then feed the single bar. -/
def c7Res : Except Err CalcLattice :=
  match buildLat (mkCalcLattice 3 [assetA, assetB]) c7Fields with
  | .ok lat => lat.newBar 200 c7Bar
  | .error _ => .error (.runErr .exception)

/-- C8 scenario fields (spec scenario 1): injection only. -/
def c8Fields : List FieldSpec := [.injection fOpen]

/-- C8 scenario bars over assets A and B. -/
def c8Bars : List (List (AssetId × List (FieldId × Val))) :=
  [oneBar fOpen [(assetA, 10), (assetB, 20)], oneBar fOpen [(assetA, 11), (assetB, 21)]]

/-- The FieldOp classes a user can name in the field_operation parameter
(fields.py): the three kind base classes and the two concrete indicators. -/
inductive OpClass where
  | injectionOp
  | windowOp
  | crossSectionalOp
  | sma
  | zscore
deriving DecidableEq

/-- Embedding of field_utils.FIELD_OPERATION_KW. -/
def FIELD_OPERATION_KW : String := "field_operation"

/-- Embedding of field_utils.FIELD_ID_KW. -/
def FIELD_ID_KW : String := "field_id"

/-- Embedding of field_utils.DEP_FIELD_ID_KW. -/
def DEP_FIELD_ID_KW : String := "dependent_field_id"

/-- The window_len constructor parameter name of WindowOp. -/
def WINDOW_LEN_KW : String := "window_len"

/-- The single member of
field_utils.PROHIBITED_USER_PROVIDED_FIELD_ATTRIBUTES. -/
def LATTICE_KW : String := "lattice"

/-- Embedding of field_utils.get_field_op_user_required_args applied to each
class: the init parameters minus self and lattice (co_varnames order); none
of these classes declares defaulted parameters, so every user argument is
required. -/
def requiredUserArgs : OpClass → List String
  | .injectionOp => [FIELD_ID_KW]
  | .windowOp => [WINDOW_LEN_KW, DEP_FIELD_ID_KW, FIELD_ID_KW]
  | .sma => [WINDOW_LEN_KW, DEP_FIELD_ID_KW, FIELD_ID_KW]
  | .crossSectionalOp => [DEP_FIELD_ID_KW, FIELD_ID_KW]
  | .zscore => [DEP_FIELD_ID_KW, FIELD_ID_KW]

/-- Embedding of field_utils.get_field_op_user_optional_args: empty for
every shipped class (no __init__ defaults). -/
def optionalUserArgs : OpClass → List String := fun _ => []

/-- A value supplied in the Field params dict: a FieldId instance, an
operation class object, or some other Python object (an int or a bare
string). -/
inductive ParamVal where
  | fieldIdVal (s : String)
  | opClassVal (c : OpClass)
  | intVal (n : Int)
  | strVal (s : String)
deriving DecidableEq

/-- The isinstance(value, FieldId) test of Field.__check_params. -/
def ParamVal.isFieldId : ParamVal → Bool
  | .fieldIdVal _ => true
  | _ => false

/-- The user-supplied params dict of fields.Field.__init__. -/
abbrev Params := List (String × ParamVal)

/-- The required-argument loop of Field.__check_params: each required name
must be present, and field_id / dependent_field_id must be FieldId
instances. -/
def checkRequired (params : Params) : List String → Except String Unit
  | [] => .ok ()
  | r :: rest =>
    match lookupKey r params with
    | none => .error ("missing required argument")
    | some v =>
      if r = FIELD_ID_KW ∧ v.isFieldId = false then
        .error ("field_id must be a FieldId")
      else if r = DEP_FIELD_ID_KW ∧ v.isFieldId = false then
        .error ("dependent_field_id must be a FieldId")
      else checkRequired params rest

/-- The trailing loop of Field.__check_params over the unverified
parameters: every leftover key must be an optional argument of the chosen
class. -/
def checkExtra (c : OpClass) : List String → Except String Unit
  | [] => .ok ()
  | k :: rest =>
    if k ∈ optionalUserArgs c then checkExtra c rest
    else .error ("unexpected parameter")

/-- Embedding of Field.__check_params (fields.py): prohibited keys first,
then presence and classness of field_operation, then the required-argument
loop, then the extra-key loop over the remaining names. -/
def checkParams (params : Params) : Except String Unit :=
  if (lookupKey LATTICE_KW params).isSome then .error ("user cannot provide lattice")
  else
    match lookupKey FIELD_OPERATION_KW params with
    | none => .error ("field_operation is required")
    | some (.opClassVal c) =>
      match checkRequired params (requiredUserArgs c) with
      | .error e => .error e
      | .ok _ =>
        checkExtra c ((params.map Prod.fst).filter
          (fun k => if k = FIELD_OPERATION_KW then false
                    else if k ∈ requiredUserArgs c then false
                    else true))
    | some _ => .error ("field_operation must be a FieldOp subclass")

/-- A params key holding a value that is not a FieldId instance. -/
def presentNonFieldId (params : Params) (k : String) : Bool :=
  match lookupKey k params with
  | some v => !v.isFieldId
  | none => false

/-- Some required constructor argument of the chosen class is absent. -/
def missingRequired (params : Params) : Bool :=
  match lookupKey FIELD_OPERATION_KW params with
  | some (.opClassVal c) => (requiredUserArgs c).any (fun r => (lookupKey r params).isNone)
  | _ => false

/-- Some supplied key is neither field_operation nor a constructor
parameter of the chosen class. -/
def extraKeySupplied (params : Params) : Bool :=
  match lookupKey FIELD_OPERATION_KW params with
  | some (.opClassVal c) =>
    (params.map Prod.fst).any (fun k =>
      if k = FIELD_OPERATION_KW then false
      else if k ∈ requiredUserArgs c then false
      else if k ∈ optionalUserArgs c then false
      else true)
  | _ => false

/-- The C10 error conditions: field_operation absent, lattice present,
field_id or dependent_field_id present but not a FieldId, a required
argument missing, or an extra key supplied. -/
def badParams (params : Params) : Bool :=
  (lookupKey FIELD_OPERATION_KW params).isNone
  || (lookupKey LATTICE_KW params).isSome
  || presentNonFieldId params FIELD_ID_KW
  || presentNonFieldId params DEP_FIELD_ID_KW
  || missingRequired params
  || extraKeySupplied params

/-- Overwriting insert always stores the new value at the key (Python dict
assignment); no hypotheses are needed. -/
theorem insertValue_lookup (layer : BarLayer) (a : AssetId) (f : FieldId) (v : Val) :
    lookupKey (a, f) (insertValue layer a f v) = some v := by
  induction layer with
  | nil => simp [insertValue, lookupKey]
  | cons e rest ih =>
    by_cases he : e.1 = (a, f)
    · simp [insertValue, he, lookupKey]
    · simp [insertValue, he, lookupKey, ih]

/-- Every key of an overwriting insert is an old key or the inserted key. -/
theorem insertValue_keys_mem (layer : BarLayer) (a : AssetId) (f : FieldId) (v : Val) :
    ∀ k, k ∈ (insertValue layer a f v).map Prod.fst → k ∈ layer.map Prod.fst ∨ k = (a, f) := by
  induction layer with
  | nil =>
    intro k hk
    simp only [insertValue, List.map_cons, List.map_nil, List.mem_singleton] at hk
    right
    exact hk
  | cons e rest ih =>
    intro k hk
    by_cases he : e.1 = (a, f)
    · simp only [insertValue, if_pos he, List.map_cons, List.mem_cons] at hk
      rcases hk with hk | hk
      · right; exact hk
      · left
        simp only [List.map_cons, List.mem_cons]
        right
        exact hk
    · simp only [insertValue, if_neg he, List.map_cons, List.mem_cons] at hk
      rcases hk with hk | hk
      · left
        simp only [List.map_cons, List.mem_cons]
        left
        exact hk
      · rcases ih k hk with h | h
        · left
          simp only [List.map_cons, List.mem_cons]
          right
          exact h
        · right
          exact h

/-- C1: after new_bar on a lattice with a valid registered DAG (Open
injected, SMA1 a window-1 SMA on Open) and the bar Open(A) = 0, the cell
(A, SMA1) is ABSENT from the current layer even though the operation
computed 0.0, because CalcLattice.__propagate only stores truthy results;
the genesis cell is present and smaOp did produce 0.0. This exhibits the
failing input of the claim that every non-injection cell is present and
that computed values (including 0.0) are inserted unconditionally. -/
theorem claim_C1 :
    runAndReadAgo 3 [assetA] c1Fields c1Bars 0 assetA fSMA1 = .error (.runErr .valueErr)
    ∧ runAndReadAgo 3 [assetA] c1Fields c1Bars 0 assetA fOpen = .ok (Val.num 0)
    ∧ smaOp [Val.num 0] = Val.num 0 :=
  ⟨rfl, rfl, rfl⟩

/-- C2: on the bar A = 1, B = 2, C = 3 the Z_Score operation itself computes
the claimed cross-section (-1, 0, 1) with sample standard deviation 1, and
a one-asset cross-section yields the missing sentinel for every asset; but
reading the current layer gives Z(A) = -1 and Z(C) = 1 while Z(B) raises
the missing-cell ValueError, because the truthy-insert defect skips the
computed 0.0. -/
theorem claim_C2 :
    runAndReadAgo 3 [assetA, assetB, assetC] c2Fields [c2Bar] 0 assetA fZ = .ok (Val.num (-1))
    ∧ runAndReadAgo 3 [assetA, assetB, assetC] c2Fields [c2Bar] 0 assetB fZ
        = .error (.runErr .valueErr)
    ∧ runAndReadAgo 3 [assetA, assetB, assetC] c2Fields [c2Bar] 0 assetC fZ = .ok (Val.num 1)
    ∧ zScoreOp [(assetA, Val.num 1), (assetB, Val.num 2), (assetC, Val.num 3)]
        = [(assetA, Val.num (-1)), (assetB, Val.num 0), (assetC, Val.num 1)]
    ∧ (∀ (a : AssetId) (v : Val), zScoreOp [(a, v)] = [(a, Val.missing)]) :=
  ⟨rfl, rfl, rfl, rfl, fun _ v => by cases v <;> rfl⟩

/-- C3 counterexample: with ring capacity 2 and a window-3 SMA, the first
two bars complete with the missing sentinel, but the third new_bar call
raises the out-of-range ValueError instead of completing normally — the
claim that new_bar completes normally on every bar indefinitely is false. -/
theorem claim_C3_counterexample :
    runAndReadAgo 2 [assetA] c3Fields (c3Bars.take 1) 0 assetA fW3 = .ok Val.missing
    ∧ runAndReadAgo 2 [assetA] c3Fields (c3Bars.take 2) 0 assetA fW3 = .ok Val.missing
    ∧ runAndReadAgo 2 [assetA] c3Fields c3Bars 0 assetA fW3 = .error (.runErr .valueErr) :=
  ⟨rfl, rfl, rfl⟩

/-- C5 counterexample: a lattice whose registered window edges form the
cycle F1 -> F2 -> F1 (both fields also unreachable from the injection
field) accepts new_bar without raising BadDAG, refuting the claim that a
cyclic or unreachable graph makes the first new_bar raise. -/
theorem claim_C5_counterexample :
    (c5Lat.newBar 200 c5Bar).isOk = true
    ∧ lookupKey fF2 c5Lat.windowDepFields = some [fF1]
    ∧ lookupKey fF1 c5Lat.windowDepFields = some [fF2] :=
  ⟨rfl, rfl, rfl⟩

/-- C5 amended: CalcLattice.__check_DAG is a stub that always returns
DAGStatusCodes.OK, so new_bar never raises BadDAG on any lattice, any
input and any graph whatsoever. -/
theorem claim_C5 (fuel : Nat) (lat : CalcLattice)
    (data : List (AssetId × List (FieldId × Val))) (code : Int) :
    lat.newBar fuel data ≠ Except.error (Err.badDAG code) := by
  simp only [CalcLattice.newBar, CalcLattice.checkDAG, ne_eq, not_true_eq_false,
    and_false, if_false]
  cases h : lat.injectAndPropagate fuel data <;> simp

/-- C6 counterexample: add_field accepts a window field with window_len 0
whose upstream field Open has never been registered, refuting the claim
that add_field requires window_len at least 1 and a previously registered
upstream. -/
theorem claim_C6_counterexample :
    ((mkCalcLattice 3 [assetA]).addField (smaField fW fOpen 0)).isOk = true
    ∧ lookupKey fOpen (mkCalcLattice 3 [assetA]).fieldToFieldOp = none :=
  ⟨rfl, rfl⟩

/-- C6 amended: add_field succeeds exactly when no bar has been injected
yet and the field id is not already present in field_to_field_op; it
performs no window_len validation and no upstream-registration check. -/
theorem claim_C6 (lat : CalcLattice) (field : FieldSpec) :
    (lat.addField field).isOk = true ↔
      (lat.curBarIndex = -1 ∧ lookupKey field.fieldId lat.fieldToFieldOp = none) := by
  unfold CalcLattice.addField
  split_ifs with h1 h2
  · simp [Except.isOk, Except.toBool, h1]
  · rcases Option.isSome_iff_exists.mp h2 with ⟨v, hv⟩
    simp [Except.isOk, Except.toBool, hv]
  · have hcur : lat.curBarIndex = -1 := not_not.mp h1
    have hnone : lookupKey field.fieldId lat.fieldToFieldOp = none :=
      Option.not_isSome_iff_eq_none.mp h2
    cases field <;> simp [Except.isOk, Except.toBool, hcur, hnone]

/-- C7: on the bar Open(A) = 0, Open(B) = 5 with SMA1 on Open and a Z-Score
on SMA1, the computed SMA1(A) = 0.0 is skipped by the truthy-insert defect,
yet the all-assets barrier counter still reaches 2 and fires the Z-Score
over the partial one-asset cross-section; its output lacks asset A and the
fan-out then crashes new_bar with a KeyError. The second conjunct shows
what the operation observed: a single-asset section producing only a B
entry. -/
theorem claim_C7 :
    c7Res = .error (.runErr .keyErr)
    ∧ zScoreOp [(assetB, Val.num 5)] = [(assetB, Val.missing)] :=
  ⟨rfl, rfl⟩

/-- C9 counterexample: writing the same (asset, field) key twice in one
layer does not raise — BarLayer.insert_value is a plain dict assignment
that silently overwrites, so the claim that a duplicate write must panic is
false; the layer simply holds the second value. -/
theorem claim_C9_counterexample :
    insertValue (insertValue [] assetA fOpen (Val.num 1)) assetA fOpen (Val.num 2) =
      [((assetA, fOpen), Val.num 2)] :=
  rfl

/-- C9 amended: insert_value silently overwrites; it never errors, a layer
with distinct keys keeps distinct keys under insertion (so a layer never
holds two entries for one pair), and the inserted value is what a
subsequent read returns. -/
theorem claim_C9 (layer : BarLayer) (a : AssetId) (f : FieldId) (v : Val) :
    ((layer.map Prod.fst).Nodup → ((insertValue layer a f v).map Prod.fst).Nodup)
    ∧ lookupKey (a, f) (insertValue layer a f v) = some v := by
  refine ⟨?_, insertValue_lookup layer a f v⟩
  induction layer with
  | nil =>
    intro _
    simp [insertValue]
  | cons e rest ih =>
    intro hnd
    simp only [List.map_cons, List.nodup_cons] at hnd
    by_cases he : e.1 = (a, f)
    · simp only [insertValue, if_pos he, List.map_cons, List.nodup_cons]
      exact ⟨by rw [← he]; exact hnd.1, hnd.2⟩
    · simp only [insertValue, if_neg he, List.map_cons, List.nodup_cons]
      constructor
      · intro hk
        rcases insertValue_keys_mem rest a f v e.1 hk with h | h
        · exact hnd.1 h
        · exact he h
      · exact ih hnd.2

/-- C8: the exact guard behavior of the ring read: OutOfRange (ValueError)
for n < 0 or n at least the capacity, NotYetComputed (IndexError) for n
beyond the completed bars, the ring slot (cur - n) mod C otherwise, and
every in-range read on a freshly constructed lattice fails NotYetComputed;
the closing conjuncts replay the spec's injection-only scenario. -/
theorem claim_C8 (lat : CalcLattice) (n : Int) :
    ((n < 0 ∨ (lat.numBarsStored : Int) ≤ n) → lat.getNBarAgoData n = .error .valueErr)
    ∧ (0 ≤ n → n < (lat.numBarsStored : Int) → lat.numBarsCompleted < n →
        lat.getNBarAgoData n = .error .indexErr)
    ∧ (0 ≤ n → n < (lat.numBarsStored : Int) → n ≤ lat.numBarsCompleted →
        ∀ layer,
          lat.recentBars.getD ((lat.curBarIndex - n) % (lat.numBarsStored : Int)).toNat none
            = some layer →
          lat.getNBarAgoData n = .ok layer)
    ∧ (∀ (cap : Nat) (assets : List AssetId), 0 ≤ n → n < (cap : Int) →
        (mkCalcLattice cap assets).getNBarAgoData n = .error .indexErr)
    ∧ runAndReadAgo 3 [assetA, assetB] c8Fields c8Bars 0 assetA fOpen = .ok (Val.num 11)
    ∧ runAndReadAgo 3 [assetA, assetB] c8Fields c8Bars 1 assetB fOpen = .ok (Val.num 20)
    ∧ runAndReadAgo 3 [assetA, assetB] c8Fields c8Bars 2 assetA fOpen
        = .error (.runErr .indexErr) := by
  refine ⟨?_, ?_, ?_, ?_, rfl, rfl, rfl⟩
  · intro h
    rcases h with h | h <;>
      · simp only [CalcLattice.getNBarAgoData]
        split_ifs <;> first | rfl | omega
  · intro h0 hC hnb
    simp only [CalcLattice.getNBarAgoData]
    split_ifs <;> first | rfl | omega
  · intro h0 hC hnb layer hslot
    simp only [CalcLattice.getNBarAgoData]
    rw [if_neg (by omega), if_neg (by omega), if_neg (by omega), hslot]
  · intro cap assets h0 hC
    simp only [CalcLattice.getNBarAgoData, mkCalcLattice]
    split_ifs <;> first | rfl | omega

/-- C8 witness: the guard trichotomy applied at concrete lattices. -/
theorem claim_C8_witness :
    (mkCalcLattice 2 [assetA]).getNBarAgoData 5 = .error .valueErr
    ∧ (mkCalcLattice 2 [assetA]).getNBarAgoData 1 = .error .indexErr
    ∧ c4WitLat.getNBarAgoData 0 = .ok [((assetA, fOpen), Val.num 7)]
    ∧ (mkCalcLattice 3 []).getNBarAgoData 2 = .error .indexErr :=
  ⟨(claim_C8 (mkCalcLattice 2 [assetA]) 5).1 (Or.inr (by decide)),
   (claim_C8 (mkCalcLattice 2 [assetA]) 1).2.1 (by decide) (by decide) (by decide),
   (claim_C8 c4WitLat 0).2.2.1 (by decide) (by decide) (by decide)
     [((assetA, fOpen), Val.num 7)] rfl,
   (claim_C8 (mkCalcLattice 3 []) 2).2.2.2.1 3 [] (by decide) (by decide)⟩

/-- Every successful window gather returns one value per requested offset. -/
theorem collectWindow_ok_length (lat : CalcLattice) (dep : FieldId) (a : AssetId) :
    ∀ (l : List Nat) (vs : List Val),
      collectWindow lat dep a l = .ok vs → vs.length = l.length := by
  intro l
  induction l with
  | nil =>
    intro vs h
    simp only [collectWindow] at h
    cases h
    rfl
  | cons ago rest ih =>
    intro vs h
    simp only [collectWindow] at h
    cases h1 : windowReadOne lat dep a ago with
    | error e => rw [h1] at h; simp at h
    | ok v =>
      rw [h1] at h
      cases h2 : collectWindow lat dep a rest with
      | error e => rw [h2] at h; simp at h
      | ok vs2 =>
        rw [h2] at h
        simp only at h
        cases h
        simp [ih vs2 h2]

/-- A window read at an offset at or past the ring capacity always raises
the out-of-range ValueError. -/
theorem windowReadOne_capacityErr (lat : CalcLattice) (dep : FieldId) (a : AssetId) (ago : Nat)
    (h : lat.numBarsStored ≤ ago) :
    windowReadOne lat dep a ago = .error .valueErr := by
  unfold windowReadOne CalcLattice.getNBarAgoFieldData CalcLattice.getNBarAgoData
  rw [if_neg (by omega), if_pos (by omega)]

/-- A window gather whose offsets reach the ring capacity never succeeds. -/
theorem collectWindow_over_notOk (lat : CalcLattice) (dep : FieldId) (a : AssetId) :
    ∀ l : List Nat, (∃ x ∈ l, lat.numBarsStored ≤ x) →
      (collectWindow lat dep a l).isOk = false := by
  intro l
  induction l with
  | nil =>
    rintro ⟨x, hx, _⟩
    simp at hx
  | cons ago rest ih =>
    rintro ⟨x, hx, hle⟩
    simp only [collectWindow]
    rcases List.mem_cons.mp hx with rfl | hx2
    · rw [windowReadOne_capacityErr lat dep a x hle]
      rfl
    · cases h1 : windowReadOne lat dep a ago with
      | error e => rfl
      | ok v =>
        have herr := ih ⟨x, hx2, hle⟩
        cases h2 : collectWindow lat dep a rest with
        | error e => rfl
        | ok vs =>
          rw [h2] at herr
          simp [Except.isOk, Except.toBool] at herr

/-- C3 counterexample established the run-level failure; this is the
amended per-operation statement: while the clamp
min(window_len, bars_completed + 1) still fits in the ring, a window field
with window_len strictly larger than the capacity evaluates to the default
partial-op missing sentinel, but as soon as the clamp exceeds the ring
capacity the window read fails (the out-of-range guard fires inside the
gather), so new_bar raises instead of degrading silently. -/
theorem claim_C3 (lat : CalcLattice) (windowLen : Int) (dep : FieldId) (a : AssetId)
    (opF pOpF : List Val → Val) :
    (∀ vs : List Val, (lat.numBarsStored : Int) < windowLen →
      -1 ≤ lat.numBarsCompleted →
      lat.numBarsCompleted + 1 ≤ (lat.numBarsStored : Int) →
      windowGetData lat windowLen dep a = .ok vs →
      windowExecuteOp lat windowLen dep opF partialDataOp a = .ok Val.missing)
    ∧ ((lat.numBarsStored : Int) < min windowLen (lat.numBarsCompleted + 1) →
      (windowExecuteOp lat windowLen dep opF pOpF a).isOk = false) := by
  constructor
  · intro vs hCL hm1 hmC hok
    have hlen : vs.length = (min windowLen (lat.numBarsCompleted + 1)).toNat := by
      have h := collectWindow_ok_length lat dep a _ vs hok
      rwa [List.length_range] at h
    have hmin : min windowLen (lat.numBarsCompleted + 1) = lat.numBarsCompleted + 1 :=
      min_eq_right (by omega)
    have hlenI : (vs.length : Int) = lat.numBarsCompleted + 1 := by
      rw [hlen, hmin]; omega
    unfold windowExecuteOp
    rw [hok]
    dsimp only
    rw [if_neg (show ¬((vs.length : Int) = windowLen) from by omega), if_pos (by omega)]
    rfl
  · intro hover
    have hmin0 : (0 : Int) ≤ min windowLen (lat.numBarsCompleted + 1) := by
      have := Int.ofNat_nonneg lat.numBarsStored
      omega
    have hC : lat.numBarsStored < (min windowLen (lat.numBarsCompleted + 1)).toNat := by
      omega
    have herr := collectWindow_over_notOk lat dep a
      (List.range (min windowLen (lat.numBarsCompleted + 1)).toNat)
      ⟨lat.numBarsStored, List.mem_range.mpr hC, le_refl _⟩
    unfold windowExecuteOp windowGetData
    cases h : collectWindow lat dep a
        (List.range (min windowLen (lat.numBarsCompleted + 1)).toNat) with
    | error e => rfl
    | ok vs =>
      rw [h] at herr
      simp [Except.isOk, Except.toBool] at herr

/-- C3 witness: the warm-up half applied to a one-bar lattice (capacity 1,
window 2, value 7 stored) and the overflow half applied to a lattice with
two completed bars and capacity 1. -/
theorem claim_C3_witness :
    windowExecuteOp c4WitLat 2 fOpen smaOp partialDataOp assetA = .ok Val.missing
    ∧ (windowExecuteOp c3WitLat 2 fOpen smaOp partialDataOp assetA).isOk = false :=
  ⟨(claim_C3 c4WitLat 2 fOpen assetA smaOp partialDataOp).1 [Val.num 7] (by decide) (by decide)
      (by decide) rfl,
   (claim_C3 c3WitLat 2 fOpen assetA smaOp partialDataOp).2 (by decide)⟩

/-- C4: every window execution reads exactly
W = min(window_len, bars_completed + 1) values and applies partial_op when
W < window_len and op otherwise; concretely, the SMA3-on-Open warm-up run
over Open = 1, 2, 3, 4 produces missing, missing, 2.0, 3.0 in the current
layer of the four successive bars. -/
theorem claim_C4 :
    (∀ (lat : CalcLattice) (windowLen : Int) (dep : FieldId) (a : AssetId)
      (opF pOpF : List Val → Val) (vs : List Val),
      1 ≤ windowLen → 0 ≤ lat.numBarsCompleted →
      windowGetData lat windowLen dep a = .ok vs →
      ((vs.length : Int) = min windowLen (lat.numBarsCompleted + 1)
        ∧ windowExecuteOp lat windowLen dep opF pOpF a =
            .ok (if (vs.length : Int) < windowLen then pOpF vs else opF vs)))
    ∧ runAndReadAgo 5 [assetA] c4Fields (c4Bars.take 1) 0 assetA fSMA3 = .ok Val.missing
    ∧ runAndReadAgo 5 [assetA] c4Fields (c4Bars.take 2) 0 assetA fSMA3 = .ok Val.missing
    ∧ runAndReadAgo 5 [assetA] c4Fields (c4Bars.take 3) 0 assetA fSMA3 = .ok (Val.num 2)
    ∧ runAndReadAgo 5 [assetA] c4Fields c4Bars 0 assetA fSMA3 = .ok (Val.num 3) := by
  refine ⟨?_, rfl, rfl, rfl, rfl⟩
  intro lat windowLen dep a opF pOpF vs hL hnb hok
  have hlen : vs.length = (min windowLen (lat.numBarsCompleted + 1)).toNat := by
    have h := collectWindow_ok_length lat dep a _ vs hok
    rwa [List.length_range] at h
  have hminLe : min windowLen (lat.numBarsCompleted + 1) ≤ windowLen := min_le_left _ _
  have hmin0 : (0 : Int) ≤ min windowLen (lat.numBarsCompleted + 1) :=
    le_min (by omega) (by omega)
  have hlenI : (vs.length : Int) = min windowLen (lat.numBarsCompleted + 1) := by
    rw [hlen]; omega
  refine ⟨hlenI, ?_⟩
  unfold windowExecuteOp
  rw [hok]
  dsimp only
  by_cases hlt : (vs.length : Int) < windowLen
  · rw [if_neg (show ¬((vs.length : Int) = windowLen) from by omega), if_pos hlt, if_pos hlt]
  · have heq : (vs.length : Int) = windowLen := by omega
    rw [if_pos heq, if_neg hlt]

/-- C4 witness: the clamp-and-dispatch statement applied to the concrete
one-bar lattice with a full window of length 1. -/
theorem claim_C4_witness :
    (([Val.num 7].length : Int) = min 1 (c4WitLat.numBarsCompleted + 1)
      ∧ windowExecuteOp c4WitLat 1 fOpen smaOp partialDataOp assetA =
          .ok (if (([Val.num 7] : List Val).length : Int) < 1 then partialDataOp [Val.num 7]
               else smaOp [Val.num 7])) :=
  claim_C4.1 c4WitLat 1 fOpen assetA smaOp partialDataOp [Val.num 7] (by decide) (by decide) rfl

/-- C9 witness: the amended statement applied to a concrete one-entry
layer. -/
theorem claim_C9_witness :
    ((insertValue [((assetA, fOpen), Val.num 1)] assetA fOpen (Val.num 2)).map
        Prod.fst).Nodup
    ∧ lookupKey (assetA, fOpen)
        (insertValue [((assetA, fOpen), Val.num 1)] assetA fOpen (Val.num 2)) =
      some (Val.num 2) :=
  ⟨(claim_C9 [((assetA, fOpen), Val.num 1)] assetA fOpen (Val.num 2)).1 (by decide),
   (claim_C9 [((assetA, fOpen), Val.num 1)] assetA fOpen (Val.num 2)).2⟩

/-- A successful lookup key is among the stored keys. -/
theorem lookupKey_mem {α β : Type} [DecidableEq α] (k : α) (l : List (α × β)) (v : β)
    (h : lookupKey k l = some v) : k ∈ l.map Prod.fst := by
  induction l with
  | nil => simp [lookupKey] at h
  | cons e rest ih =>
    simp only [lookupKey] at h
    by_cases he : e.1 = k
    · simp [he]
    · rw [if_neg he] at h
      simp only [List.map_cons, List.mem_cons]
      right
      exact ih h

/-- The required-argument loop fails when some required name is absent from
the params dict. -/
theorem checkRequired_err_missing (params : Params) :
    ∀ (l : List String) (r : String), r ∈ l → lookupKey r params = none →
      (checkRequired params l).isOk = false := by
  intro l
  induction l with
  | nil =>
    intro r hr _
    simp at hr
  | cons s rest ih =>
    intro r hr hnone
    simp only [checkRequired]
    rcases List.mem_cons.mp hr with rfl | hr2
    · rw [hnone]
      rfl
    · cases hs : lookupKey s params with
      | none => rfl
      | some v =>
        dsimp only
        split_ifs
        · rfl
        · rfl
        · exact ih r hr2 hnone

/-- The required-argument loop fails when field_id or dependent_field_id is
required, present, and not a FieldId instance. -/
theorem checkRequired_err_badtype (params : Params) :
    ∀ (l : List String) (r : String) (v : ParamVal), r ∈ l →
      (r = FIELD_ID_KW ∨ r = DEP_FIELD_ID_KW) →
      lookupKey r params = some v → v.isFieldId = false →
      (checkRequired params l).isOk = false := by
  intro l
  induction l with
  | nil =>
    intro r v hr _ _ _
    simp at hr
  | cons s rest ih =>
    intro r v hr hkind hv hbad
    simp only [checkRequired]
    rcases List.mem_cons.mp hr with rfl | hr2
    · rw [hv]
      dsimp only
      split_ifs with h1 h2
      · rfl
      · rfl
      · exfalso
        rcases hkind with hk | hk
        · exact h1 ⟨hk, hbad⟩
        · exact h2 ⟨hk, hbad⟩
    · cases hs : lookupKey s params with
      | none => rfl
      | some w =>
        dsimp only
        split_ifs
        · rfl
        · rfl
        · exact ih r v hr2 hkind hv hbad

/-- The extra-key loop fails on every nonempty list, since no shipped class
has optional constructor arguments. -/
theorem checkExtra_err_ne_nil (c : OpClass) :
    ∀ l : List String, l ≠ [] → (checkExtra c l).isOk = false := by
  intro l hl
  cases l with
  | nil => exact absurd rfl hl
  | cons s rest =>
    simp only [checkExtra, optionalUserArgs]
    rw [if_neg (List.not_mem_nil s)]
    rfl

/-- Unpacking of the presentNonFieldId test. -/
theorem presentNonFieldId_spec (params : Params) (k : String)
    (h : presentNonFieldId params k = true) :
    ∃ v, lookupKey k params = some v ∧ v.isFieldId = false := by
  cases hv : lookupKey k params with
  | none =>
    unfold presentNonFieldId at h
    rw [hv] at h
    simp at h
  | some v =>
    unfold presentNonFieldId at h
    rw [hv] at h
    exact ⟨v, rfl, by simpa using h⟩

/-- Unpacking of the missingRequired test. -/
theorem missingRequired_spec (params : Params)
    (h : missingRequired params = true) :
    ∃ c, lookupKey FIELD_OPERATION_KW params = some (ParamVal.opClassVal c)
      ∧ ∃ r ∈ requiredUserArgs c, lookupKey r params = none := by
  cases hfo : lookupKey FIELD_OPERATION_KW params with
  | none =>
    unfold missingRequired at h
    rw [hfo] at h
    simp at h
  | some pv =>
    unfold missingRequired at h
    rw [hfo] at h
    cases pv with
    | opClassVal c =>
      refine ⟨c, rfl, ?_⟩
      simp only at h
      rcases List.any_eq_true.mp h with ⟨r, hr, hn⟩
      exact ⟨r, hr, Option.isNone_iff_eq_none.mp hn⟩
    | fieldIdVal s => simp at h
    | intVal n => simp at h
    | strVal s => simp at h

/-- Unpacking of the extraKeySupplied test. -/
theorem extraKeySupplied_spec (params : Params)
    (h : extraKeySupplied params = true) :
    ∃ c, lookupKey FIELD_OPERATION_KW params = some (ParamVal.opClassVal c)
      ∧ ∃ k ∈ params.map Prod.fst,
          ¬ k = FIELD_OPERATION_KW ∧ ¬ k ∈ requiredUserArgs c := by
  cases hfo : lookupKey FIELD_OPERATION_KW params with
  | none =>
    unfold extraKeySupplied at h
    rw [hfo] at h
    simp at h
  | some pv =>
    unfold extraKeySupplied at h
    rw [hfo] at h
    cases pv with
    | opClassVal c =>
      refine ⟨c, rfl, ?_⟩
      simp only at h
      rcases List.any_eq_true.mp h with ⟨k, hk, hkp⟩
      have hkFO : ¬ k = FIELD_OPERATION_KW := by
        intro hcon
        rw [if_pos hcon] at hkp
        exact Bool.false_ne_true hkp
      rw [if_neg hkFO] at hkp
      have hkreq : ¬ k ∈ requiredUserArgs c := by
        intro hcon
        rw [if_pos hcon] at hkp
        exact Bool.false_ne_true hkp
      exact ⟨k, hk, hkFO, hkreq⟩
    | fieldIdVal s => simp at h
    | intVal n => simp at h
    | strVal s => simp at h

/-- The filtered unverified-key list of checkParams is nonempty whenever a
key other than field_operation and the required arguments is supplied. -/
theorem filteredKeys_ne_nil (params : Params) (c : OpClass) (k : String)
    (hk : k ∈ params.map Prod.fst) (hkFO : ¬ k = FIELD_OPERATION_KW)
    (hkreq : ¬ k ∈ requiredUserArgs c) :
    (params.map Prod.fst).filter
      (fun x => if x = FIELD_OPERATION_KW then false
                else if x ∈ requiredUserArgs c then false
                else true) ≠ [] := by
  intro hnil
  have hkf : k ∈ (params.map Prod.fst).filter
      (fun x => if x = FIELD_OPERATION_KW then false
                else if x ∈ requiredUserArgs c then false
                else true) := by
    apply List.mem_filter.mpr
    refine ⟨hk, ?_⟩
    rw [if_neg hkFO, if_neg hkreq]
  rw [hnil] at hkf
  simp at hkf

/-- C10: Field.__check_params raises whenever field_operation is absent,
whenever the prohibited lattice key is present, whenever field_id or
dependent_field_id is supplied with a non-FieldId value, whenever a
required constructor argument of the chosen class is missing, and whenever
an extra key outside the class's constructor parameters is supplied. -/
theorem claim_C10 (params : Params) (h : badParams params = true) :
    (checkParams params).isOk = false := by
  simp only [badParams, Bool.or_eq_true] at h
  unfold checkParams
  rcases h with ((((h | h) | h) | h) | h) | h
  · cases hlat : (lookupKey LATTICE_KW params).isSome with
    | true => rfl
    | false =>
      rw [Option.isNone_iff_eq_none.mp h]
      rfl
  · rw [h]
    rfl
  · rcases presentNonFieldId_spec params FIELD_ID_KW h with ⟨v, hfid, hbad⟩
    cases hlat : (lookupKey LATTICE_KW params).isSome with
    | true => rfl
    | false =>
      cases hfo : lookupKey FIELD_OPERATION_KW params with
      | none => rfl
      | some pv =>
        cases pv with
        | opClassVal c =>
          dsimp only
          have hreq : FIELD_ID_KW ∈ requiredUserArgs c := by
            cases c <;> decide
          have herr := checkRequired_err_badtype params (requiredUserArgs c)
            FIELD_ID_KW v hreq (Or.inl rfl) hfid hbad
          cases hcr : checkRequired params (requiredUserArgs c) with
          | error e => rfl
          | ok u =>
            rw [hcr] at herr
            simp [Except.isOk, Except.toBool] at herr
        | fieldIdVal s => rfl
        | intVal n => rfl
        | strVal s => rfl
  · rcases presentNonFieldId_spec params DEP_FIELD_ID_KW h with ⟨v, hfid, hbad⟩
    cases hlat : (lookupKey LATTICE_KW params).isSome with
    | true => rfl
    | false =>
      cases hfo : lookupKey FIELD_OPERATION_KW params with
      | none => rfl
      | some pv =>
        cases pv with
        | opClassVal c =>
          dsimp only
          cases hdep : decide (DEP_FIELD_ID_KW ∈ requiredUserArgs c) with
          | true =>
            have herr := checkRequired_err_badtype params (requiredUserArgs c)
              DEP_FIELD_ID_KW v (of_decide_eq_true hdep) (Or.inr rfl) hfid hbad
            cases hcr : checkRequired params (requiredUserArgs c) with
            | error e => rfl
            | ok u =>
              rw [hcr] at herr
              simp [Except.isOk, Except.toBool] at herr
          | false =>
            cases hcr : checkRequired params (requiredUserArgs c) with
            | error e => rfl
            | ok u =>
              apply checkExtra_err_ne_nil
              exact filteredKeys_ne_nil params c DEP_FIELD_ID_KW
                (lookupKey_mem DEP_FIELD_ID_KW params v hfid)
                (by decide) (of_decide_eq_false hdep)
        | fieldIdVal s => rfl
        | intVal n => rfl
        | strVal s => rfl
  · rcases missingRequired_spec params h with ⟨c, hfo, r, hr, hrnone⟩
    cases hlat : (lookupKey LATTICE_KW params).isSome with
    | true => rfl
    | false =>
      rw [hfo]
      dsimp only
      have herr := checkRequired_err_missing params (requiredUserArgs c) r hr hrnone
      cases hcr : checkRequired params (requiredUserArgs c) with
      | error e => rfl
      | ok u =>
        rw [hcr] at herr
        simp [Except.isOk, Except.toBool] at herr
  · rcases extraKeySupplied_spec params h with ⟨c, hfo, k, hk, hkFO, hkreq⟩
    cases hlat : (lookupKey LATTICE_KW params).isSome with
    | true => rfl
    | false =>
      rw [hfo]
      dsimp only
      cases hcr : checkRequired params (requiredUserArgs c) with
      | error e => rfl
      | ok u =>
        apply checkExtra_err_ne_nil
        exact filteredKeys_ne_nil params c k hk hkFO hkreq

/-- C10 witness: a params dict supplying the prohibited lattice key is
rejected. -/
theorem claim_C10_witness :
    (checkParams [(LATTICE_KW, ParamVal.strVal ("lat"))]).isOk = false :=
  claim_C10 [(LATTICE_KW, ParamVal.strVal ("lat"))] (by decide)

end Backtest
